import Mathlib

/-!
# Verification of the cybersecurity-rrt game logic core

A shallow embedding of the Rust crate `cybersecurity-rrt-logic`
(`src/defs.rs`, `src/game/mod.rs`, `src/game/logic.rs`) together with
proofs about its setup, choice computation and event application.

Modelling conventions:
* `ArrayVec<T, N>` becomes `List T` (the capacity bound is carried as a
  hypothesis where it matters); fixed-size arrays `[T; N]` become lists
  whose length-`N` fact is carried as a hypothesis where needed.
* `u8`/`usize` become `Nat`; the one place the code does signed machine
  arithmetic (the `u8 as i8` cast in the firewall-delta handler) is
  modelled exactly by `i8ofU8`, matching the overflow-checked (debug)
  semantics in which an out-of-range intermediate aborts.
* A Rust `panic!` is modelled by the `fatal` constructor of
  `PerformResult`, which carries the state as it stood at the moment of
  the panic, so that "validation happens before mutation" is a provable
  statement rather than a modelling artifact.
* The thread-local RNG used by `shuffle` is modelled by an explicit
  `shuffled` parameter, quantified over all permutations of the valid
  card pool.
-/

namespace CyberRRT

/-- The seven operator types (`defs.rs`, `enum OperatorType`). -/
inductive OperatorType where
  | Stone
  | Sniper
  | Rogue
  | Biggs
  | Rich
  | Charm
  | Admin
deriving DecidableEq, Repr

/-- Game difficulty (`game/mod.rs`, `enum Difficulty`). -/
inductive Difficulty where
  | Easy
  | Normal
  | Hard
  | Heroic
deriving DecidableEq, Repr

/-- Card symbol (`defs.rs`, `enum Symbol`). -/
inductive Symbol where
  | NoSymbol
  | Keyboard
  | Webservice
  | Database
deriving DecidableEq, Repr

/-- Penalties which enemies can inflict (`defs.rs`, `enum Penalty`). -/
inductive Penalty where
  | NoPenalty
  | Compromise
  | Burnout
  | Ninja
  | NoSecure
  | NoGiveAssist
  | DrawLeft
  | DrawRight
  | DoubleCompromise
  | NoSecureAndHackerRevive
  | NoGiveAssistAndBurnout
  | DiscardSecure
  | NoTalentAndBurnout
  | DoubleNinja
  | Idle
deriving DecidableEq, Repr

/-- Definition of a particular hacker card (`defs.rs`, `struct Hacker`). -/
structure Hacker where
  value : Nat
  virus : Bool
  penalty : Penalty
  symbol : Symbol
deriving DecidableEq, Repr

/-- Index into `HACKERS` (`defs.rs`, `type HackerID = u8`). -/
abbrev HackerID := Nat

/-- Sentinel meaning "no hacker is there" (`defs.rs`, `NO_HACKER = 66`). -/
def NO_HACKER : HackerID := 66

/-- The fixed 66-entry hacker catalog (`defs.rs`, `static HACKERS`), in order. -/
def HACKERS : List Hacker := [
  { value := 1, virus := true,  symbol := .Database,   penalty := .Burnout },
  { value := 1, virus := true,  symbol := .Database,   penalty := .Compromise },
  { value := 1, virus := false, symbol := .Database,   penalty := .Ninja },
  { value := 1, virus := false, symbol := .Database,   penalty := .NoPenalty },
  { value := 1, virus := true,  symbol := .Webservice, penalty := .Compromise },
  { value := 1, virus := true,  symbol := .Webservice, penalty := .Burnout },
  { value := 1, virus := false, symbol := .Webservice, penalty := .NoGiveAssist },
  { value := 1, virus := false, symbol := .Webservice, penalty := .Ninja },
  { value := 1, virus := true,  symbol := .Keyboard,   penalty := .Burnout },
  { value := 1, virus := true,  symbol := .Keyboard,   penalty := .NoPenalty },
  { value := 1, virus := false, symbol := .Keyboard,   penalty := .Ninja },
  { value := 1, virus := false, symbol := .Keyboard,   penalty := .NoSecure },
  { value := 1, virus := false, symbol := .NoSymbol,   penalty := .Compromise },
  { value := 2, virus := true,  symbol := .Database,   penalty := .Compromise },
  { value := 2, virus := true,  symbol := .Database,   penalty := .Burnout },
  { value := 2, virus := false, symbol := .Database,   penalty := .Ninja },
  { value := 2, virus := false, symbol := .Database,   penalty := .NoPenalty },
  { value := 2, virus := true,  symbol := .Webservice, penalty := .Burnout },
  { value := 2, virus := true,  symbol := .Webservice, penalty := .Compromise },
  { value := 2, virus := false, symbol := .Webservice, penalty := .Ninja },
  { value := 2, virus := false, symbol := .Webservice, penalty := .NoGiveAssist },
  { value := 2, virus := true,  symbol := .Keyboard,   penalty := .NoPenalty },
  { value := 2, virus := true,  symbol := .Keyboard,   penalty := .Burnout },
  { value := 2, virus := false, symbol := .Keyboard,   penalty := .Ninja },
  { value := 2, virus := false, symbol := .Keyboard,   penalty := .NoSecure },
  { value := 2, virus := false, symbol := .NoSymbol,   penalty := .Compromise },
  { value := 3, virus := false, symbol := .Database,   penalty := .NoPenalty },
  { value := 3, virus := true,  symbol := .Database,   penalty := .Compromise },
  { value := 3, virus := true,  symbol := .Database,   penalty := .Burnout },
  { value := 3, virus := false, symbol := .Database,   penalty := .DrawLeft },
  { value := 3, virus := false, symbol := .Database,   penalty := .NoSecure },
  { value := 3, virus := false, symbol := .Webservice, penalty := .NoGiveAssist },
  { value := 3, virus := true,  symbol := .Webservice, penalty := .Burnout },
  { value := 3, virus := true,  symbol := .Webservice, penalty := .Compromise },
  { value := 3, virus := false, symbol := .Webservice, penalty := .DrawLeft },
  { value := 3, virus := true,  symbol := .Keyboard,   penalty := .Compromise },
  { value := 3, virus := true,  symbol := .Keyboard,   penalty := .NoPenalty },
  { value := 3, virus := false, symbol := .Keyboard,   penalty := .DrawLeft },
  { value := 3, virus := false, symbol := .NoSymbol,   penalty := .Burnout },
  { value := 4, virus := true,  symbol := .Database,   penalty := .Compromise },
  { value := 4, virus := true,  symbol := .Database,   penalty := .Burnout },
  { value := 4, virus := false, symbol := .Database,   penalty := .DrawRight },
  { value := 4, virus := false, symbol := .Database,   penalty := .NoSecure },
  { value := 4, virus := false, symbol := .Database,   penalty := .NoPenalty },
  { value := 4, virus := true,  symbol := .Webservice, penalty := .Burnout },
  { value := 4, virus := true,  symbol := .Webservice, penalty := .Compromise },
  { value := 4, virus := false, symbol := .Webservice, penalty := .DrawRight },
  { value := 4, virus := false, symbol := .Webservice, penalty := .NoGiveAssist },
  { value := 4, virus := true,  symbol := .Keyboard,   penalty := .DrawRight },
  { value := 4, virus := true,  symbol := .Keyboard,   penalty := .Compromise },
  { value := 4, virus := false, symbol := .Keyboard,   penalty := .NoPenalty },
  { value := 4, virus := false, symbol := .NoSymbol,   penalty := .Burnout },
  { value := 5, virus := false, symbol := .Database,   penalty := .Compromise },
  { value := 5, virus := false, symbol := .Webservice, penalty := .Ninja },
  { value := 5, virus := false, symbol := .Keyboard,   penalty := .Burnout },
  { value := 5, virus := true,  symbol := .NoSymbol,   penalty := .Compromise },
  { value := 5, virus := true,  symbol := .NoSymbol,   penalty := .Ninja },
  { value := 5, virus := true,  symbol := .NoSymbol,   penalty := .Burnout },
  { value := 5, virus := true,  symbol := .NoSymbol,   penalty := .NoGiveAssist },
  { value := 6, virus := true,  symbol := .Database,   penalty := .Idle },
  { value := 6, virus := true,  symbol := .Keyboard,   penalty := .DoubleNinja },
  { value := 6, virus := true,  symbol := .NoSymbol,   penalty := .NoTalentAndBurnout },
  { value := 6, virus := true,  symbol := .NoSymbol,   penalty := .DiscardSecure },
  { value := 6, virus := true,  symbol := .NoSymbol,   penalty := .NoGiveAssistAndBurnout },
  { value := 6, virus := true,  symbol := .NoSymbol,   penalty := .NoSecureAndHackerRevive },
  { value := 6, virus := true,  symbol := .Webservice, penalty := .DoubleCompromise }
]

/-- Index of an operator in the roster (`game/mod.rs`, `type OperatorID = u8`). -/
abbrev OperatorID := Nat

/-- A physical hacker card on the table (`game/mod.rs`, `struct HackerCard`). -/
structure HackerCard where
  hacker : HackerID
  face_up : Bool
deriving DecidableEq, Repr

/-- `HackerCard::new`: a face-down card for the given hacker id. -/
def HackerCard.new (hacker : HackerID) : HackerCard :=
  { hacker := hacker, face_up := false }

/-- A deck of hacker cards; the top is the END of the list
(`game/mod.rs`, `type HackerDeck = ArrayVec<HackerCard, 66>`). -/
abbrev HackerDeck := List HackerCard

/-- Per-operator state (`game/mod.rs`, `struct OperatorState`). -/
structure OperatorState where
  secure_slots : List HackerID
  backtrace_list : List HackerID
  burnout : Bool
  desperation : Bool
  idle : Bool
  skills : List OperatorType
deriving DecidableEq, Repr

/-- `OperatorState::new`: the initial state of an operator at game start. -/
def OperatorState.new (operator : OperatorType) : OperatorState :=
  { secure_slots := List.replicate 3 NO_HACKER
    backtrace_list := []
    burnout := false
    desperation := false
    idle := false
    skills := [operator] }

/-- Discrete states of the game where player input is required
(`game/mod.rs`, `enum ChoiceState`). -/
inductive ChoiceState where
  | Flow (op : OperatorID)
  | CharmDesperationFlow
  | BiggsFlow
  | BiggsDesperationFlow
  | Face (op : OperatorID)
  | Skill (op : OperatorID)
  | DiscardLeft (op : OperatorID)
  | ChooseAction (op : OperatorID)
  | GameOver
deriving DecidableEq, Repr

/-- A player's chosen action (`game/mod.rs`, `enum Choice`). -/
inductive Choice where
  | Face
  | Assist (target : OperatorID)
  | Idle
deriving DecidableEq, Repr

/-- Events which occur on the table (`game/mod.rs`, `enum TableEvent`).
The `ChoiceState` variant is matched on by `perform` and by the tests in
`game/logic.rs` although the enum declaration in `game/mod.rs` omits it;
it is included here as those call sites (and the design document's event
table) require. -/
inductive TableEvent where
  | FirewallDelta (delta : Int)
  | DatabaseRemove (idx : Nat)
  | WebserviceRemove (idx : Nat)
  | Face
  | Assist (target : OperatorID)
  | Idle
  | ActiveOperator (op : OperatorID)
  | ChoiceState (next : CyberRRT.ChoiceState)
deriving DecidableEq, Repr

/-- Entire state of an ongoing game (`game/mod.rs`, `struct TableState`). -/
structure TableState where
  firewalls : Nat
  databases : List Bool
  webservices : List Bool
  hackers : HackerDeck
  breach : HackerDeck
  discard : HackerDeck
  round : Nat
  facing : HackerID
  active_operator : OperatorID
  operators : List OperatorState
  choice_state : ChoiceState
deriving DecidableEq, Repr

/-- Validated game configuration (`game/mod.rs`, `struct GameConfig`). -/
structure GameConfig where
  operators : List OperatorType
  difficulty : Difficulty
deriving DecidableEq, Repr

/-- Constructor failures (`game/mod.rs`, `enum GameConfigError`). -/
inductive GameConfigError where
  | DuplicateOperator (t : OperatorType)
  | NoOperators
deriving DecidableEq, Repr

/-- The duplicate scan of `GameConfig::new`: walk the roster keeping the
set of operators seen so far, returning the first element already seen. -/
def findDup : List OperatorType → List OperatorType → Option OperatorType
  | [], _ => none
  | o :: rest, seen => if o ∈ seen then some o else findDup rest (o :: seen)

/-- `GameConfig::new` (`game/mod.rs`): validates and fails closed. -/
def GameConfig.new (difficulty : Difficulty) (operators : List OperatorType) :
    Except GameConfigError GameConfig :=
  if operators.isEmpty then .error .NoOperators
  else
    match findDup operators [] with
    | some t => .error (.DuplicateOperator t)
    | none => .ok { operators := operators, difficulty := difficulty }

/-- `difficulty_mod` (`game/logic.rs`): (firewall mod, hacker multiplier). -/
def difficulty_mod : Difficulty → Nat × Nat
  | .Easy => (3, 6)
  | .Normal => (2, 7)
  | .Hard => (1, 7)
  | .Heroic => (0, 7)

/-- `init_operators` (`game/logic.rs`). -/
def init_operators (operators : List OperatorType) : List OperatorState :=
  operators.map OperatorState.new

/-- The pool `shuffle` samples from (`game/logic.rs`): the catalog
entries with value at most 4, enumerated in catalog order and wrapped as
face-down cards. -/
def validHackers : List HackerCard :=
  (HACKERS.enum.filter (fun p => p.2.value ≤ 4)).map (fun p => HackerCard.new p.1)

/-- `shuffle` (`game/logic.rs`): take `hackers` cards from the shuffled
pool of value-at-most-4 cards. The thread-local RNG shuffle is modelled
by the explicit `shuffled` argument; callers quantify it over all
permutations of `validHackers`. -/
def shuffle (shuffled : List HackerCard) (hackers : Nat) : HackerDeck :=
  shuffled.take hackers

/-- `TableState::setup_game` (`game/logic.rs`). The `as u8` cast on the
firewall count is kept as an explicit reduction modulo 256. -/
def setup_game (config : GameConfig) (shuffled : List HackerCard) : TableState :=
  { firewalls := (config.operators.length + (difficulty_mod config.difficulty).1) % 256
    databases := [true, true, true]
    webservices := List.replicate 6 true
    hackers := shuffle shuffled (config.operators.length * (difficulty_mod config.difficulty).2)
    breach := []
    discard := []
    round := 0
    facing := NO_HACKER
    active_operator := 0
    operators := init_operators config.operators
    choice_state := .ChooseAction 0 }

/-- `TableState::valid_choices` (`game/logic.rs`). Only the
`ChooseAction` state is implemented; every other state panics
("choice state not implemented"), modelled by `none`. -/
def valid_choices (s : TableState) : Option (List Choice) :=
  match s.choice_state with
  | .ChooseAction operator =>
      some (([Choice.Idle] ++ (if s.hackers.isEmpty then [] else [Choice.Face]))
        ++ ((List.range s.operators.length).filter (fun i => i ≠ operator)).map Choice.Assist)
  | _ => none

/-- `TableState::choose` (`game/logic.rs`): the body panics
("choice not implemented") for every choice, modelled by `none`. -/
def choose (_s : TableState) (_choice : Choice) : Option (List TableEvent) :=
  none

/-- Outcome of `TableState::perform`: either the updated state, or a
fatal `panic!` carrying the state as it stood when the panic fired. -/
inductive PerformResult where
  | ok (s : TableState)
  | fatal (s : TableState)
deriving DecidableEq, Repr

/-- Rust's `u8 as i8` cast, as exact integer arithmetic. -/
def i8ofU8 (n : Nat) : Int :=
  if n % 256 < 128 then ((n % 256 : Nat) : Int) else ((n % 256 : Nat) : Int) - 256

/-- `TableState::perform` (`game/logic.rs`): apply one event after
validating its precondition; a violated precondition (or an
unimplemented event) panics with the state unchanged.

The `Idle` branch indexes `operators` by `active_operator`; the Rust
helper `active_operator()` it calls is not declared anywhere in the
sources. Modelled from the spec: the event table says `Idle` marks the
*active operator* idle, and the tests pin `operators[0]` for
`active_operator = 0`, so the helper is embedded as that indexing (an
out-of-range index is the indexing panic). -/
def perform (s : TableState) : TableEvent → PerformResult
  | .FirewallDelta delta =>
      let result : Int := i8ofU8 s.firewalls + delta
      if 0 ≤ result ∧ result ≤ 3 then
        .ok { s with firewalls := result.toNat }
      else
        .fatal s
  | .DatabaseRemove idx =>
      if idx < 3 then
        match s.databases[idx]? with
        | some b => if b then .ok { s with databases := s.databases.set idx false } else .fatal s
        | none => .fatal s
      else
        .fatal s
  | .WebserviceRemove idx =>
      if idx < 5 then
        match s.webservices[idx]? with
        | some b => if b then .ok { s with webservices := s.webservices.set idx false } else .fatal s
        | none => .fatal s
      else
        .fatal s
  | .Face =>
      if s.facing ≠ NO_HACKER then
        .fatal s
      else
        match s.hackers.getLast? with
        | some x => .ok { s with hackers := s.hackers.dropLast, facing := x.hacker }
        | none => .fatal s
  | .Idle =>
      match s.operators[s.active_operator]? with
      | some op =>
          if op.idle then .fatal s
          else .ok { s with operators := s.operators.set s.active_operator { op with idle := true } }
      | none => .fatal s
  | .ChoiceState x => .ok { s with choice_state := x }
  | .Assist _ => .fatal s
  | .ActiveOperator _ => .fatal s

/-- States reachable from `setup_game` (over any RNG outcome) by a
sequence of successful `perform` events. -/
inductive Reachable (config : GameConfig) : TableState → Prop where
  | setup (shuffled : List HackerCard) (hperm : shuffled.Perm validHackers) :
      Reachable config (setup_game config shuffled)
  | step (s : TableState) (e : TableEvent) (s' : TableState)
      (hr : Reachable config s) (hstep : perform s e = .ok s') :
      Reachable config s'

/-- Modelled from the spec: the event-contract table of the design
document (its "Precondition" column), used to compare the documented
preconditions against what `perform` actually rejects. -/
def specEventPre (s : TableState) : TableEvent → Prop
  | .FirewallDelta delta =>
      0 ≤ i8ofU8 s.firewalls + delta ∧ i8ofU8 s.firewalls + delta ≤ 3
  | .DatabaseRemove idx => idx < 3 ∧ s.databases[idx]? = some true
  | .WebserviceRemove idx => idx < 6 ∧ s.webservices[idx]? = some true
  | .Face => s.facing = NO_HACKER ∧ s.hackers ≠ []
  | .Idle => ∃ op, s.operators[s.active_operator]? = some op ∧ op.idle = false
  | .Assist target => target ≠ s.active_operator
  | .ActiveOperator _ => True
  | .ChoiceState _ => True

/-- Frame of each implemented event: which `TableState` components an
event is allowed to touch; every other field must be preserved. The
unimplemented events (`Assist`, `ActiveOperator`) never succeed, so
their frame is vacuous. -/
def framePreserved (s : TableState) : TableEvent → TableState → Prop
  | .FirewallDelta _, s' =>
      s'.databases = s.databases ∧ s'.webservices = s.webservices ∧
      s'.hackers = s.hackers ∧ s'.breach = s.breach ∧ s'.discard = s.discard ∧
      s'.round = s.round ∧ s'.facing = s.facing ∧
      s'.active_operator = s.active_operator ∧ s'.operators = s.operators ∧
      s'.choice_state = s.choice_state
  | .DatabaseRemove idx, s' =>
      s'.firewalls = s.firewalls ∧ s'.databases.length = s.databases.length ∧
      (∀ j, j ≠ idx → s'.databases[j]? = s.databases[j]?) ∧
      s'.webservices = s.webservices ∧ s'.hackers = s.hackers ∧
      s'.breach = s.breach ∧ s'.discard = s.discard ∧ s'.round = s.round ∧
      s'.facing = s.facing ∧ s'.active_operator = s.active_operator ∧
      s'.operators = s.operators ∧ s'.choice_state = s.choice_state
  | .WebserviceRemove idx, s' =>
      s'.firewalls = s.firewalls ∧ s'.databases = s.databases ∧
      s'.webservices.length = s.webservices.length ∧
      (∀ j, j ≠ idx → s'.webservices[j]? = s.webservices[j]?) ∧
      s'.hackers = s.hackers ∧ s'.breach = s.breach ∧ s'.discard = s.discard ∧
      s'.round = s.round ∧ s'.facing = s.facing ∧
      s'.active_operator = s.active_operator ∧ s'.operators = s.operators ∧
      s'.choice_state = s.choice_state
  | .Face, s' =>
      s'.firewalls = s.firewalls ∧ s'.databases = s.databases ∧
      s'.webservices = s.webservices ∧ s'.breach = s.breach ∧
      s'.discard = s.discard ∧ s'.round = s.round ∧
      s'.active_operator = s.active_operator ∧ s'.operators = s.operators ∧
      s'.choice_state = s.choice_state
  | .Idle, s' =>
      s'.firewalls = s.firewalls ∧ s'.databases = s.databases ∧
      s'.webservices = s.webservices ∧ s'.hackers = s.hackers ∧
      s'.breach = s.breach ∧ s'.discard = s.discard ∧ s'.round = s.round ∧
      s'.facing = s.facing ∧ s'.active_operator = s.active_operator ∧
      s'.choice_state = s.choice_state ∧
      (∀ j, j ≠ s.active_operator → s'.operators[j]? = s.operators[j]?) ∧
      (∃ op, s.operators[s.active_operator]? = some op ∧
        s'.operators[s.active_operator]? = some { op with idle := true })
  | .ChoiceState _, s' =>
      s'.firewalls = s.firewalls ∧ s'.databases = s.databases ∧
      s'.webservices = s.webservices ∧ s'.hackers = s.hackers ∧
      s'.breach = s.breach ∧ s'.discard = s.discard ∧ s'.round = s.round ∧
      s'.facing = s.facing ∧ s'.active_operator = s.active_operator ∧
      s'.operators = s.operators
  | .Assist _, _ => True
  | .ActiveOperator _, _ => True

/-- Concrete config: two operators (Stone, Sniper) on Easy, as in the
repository's own tests and the spec's end-to-end example. -/
def cfg2e : GameConfig := { operators := [.Stone, .Sniper], difficulty := .Easy }

/-- Concrete config: one operator (Stone) on Easy. -/
def cfg1e : GameConfig := { operators := [.Stone], difficulty := .Easy }

/-- Concrete config: one operator (Stone) on Heroic — initial firewall
maximum 1 + 0 = 1. -/
def cfg1h : GameConfig := { operators := [.Stone], difficulty := .Heroic }

/-- Concrete table: `setup_game cfg2e` with the identity permutation of
the valid-card pool. -/
def table2e : TableState := setup_game cfg2e validHackers

/-- Concrete table: `setup_game cfg1e` with the identity permutation. -/
def table1e : TableState := setup_game cfg1e validHackers

/-- Concrete table: `setup_game cfg1h` with the identity permutation. -/
def table1h : TableState := setup_game cfg1h validHackers

/-- The two-operator Easy table with its firewall count overridden, as
the repository's own firewall tests do. -/
def fwTable (n : Nat) : TableState := { table2e with firewalls := n }

/-- The two-operator Easy table already facing hacker 3, as the
repository's own already-facing test does. -/
def facingTable : TableState := { table2e with facing := 3 }

/-- The Stone operator's state with its idle flag set. -/
def opIdleStone : OperatorState := { OperatorState.new .Stone with idle := true }

/-- The one-operator Easy table after operator 0 went idle. -/
def idleTable : TableState := { table1e with operators := [opIdleStone] }

/-- The one-operator Heroic table with 3 firewalls — above its initial
maximum of 1. -/
def overTable : TableState := { table1h with firewalls := 3 }

lemma i8ofU8_of_le {n : Nat} (h : n ≤ 127) : i8ofU8 n = n := by
  have h256 : n % 256 = n := Nat.mod_eq_of_lt (by omega)
  simp [i8ofU8, h256]
  omega

lemma validHackers_length : validHackers.length = 52 := by decide

lemma validHackers_spec :
    ∀ c ∈ validHackers,
      c.face_up = false ∧ ∃ h, HACKERS[c.hacker]? = some h ∧ h.value ≤ 4 := by
  have hb : validHackers.all
      (fun c => !c.face_up &&
        ((HACKERS[c.hacker]?).map (fun h => decide (h.value ≤ 4))).getD false) = true := by
    decide
  intro c hc
  have h1 := List.all_eq_true.mp hb c hc
  simp only [Bool.and_eq_true, Bool.not_eq_true'] at h1
  refine ⟨h1.1, ?_⟩
  have h2 := h1.2
  cases ho : HACKERS[c.hacker]? with
  | none => rw [ho] at h2; simp at h2
  | some h =>
      rw [ho] at h2
      simp only [Option.map_some', Option.getD_some] at h2
      exact ⟨h, rfl, of_decide_eq_true h2⟩

lemma perform_fatal_eq (s : TableState) (e : TableEvent) (s' : TableState)
    (h : perform s e = .fatal s') : s' = s := by
  cases e <;> simp only [perform] at h <;> (repeat' split at h) <;> (cases h <;> rfl)

lemma perform_ok_firewalls (s : TableState) (e : TableEvent) (s' : TableState)
    (h : perform s e = .ok s') (hne : ∀ d, e ≠ TableEvent.FirewallDelta d) :
    s'.firewalls = s.firewalls := by
  cases e <;>
    first
      | exact absurd rfl (hne _)
      | (simp only [perform] at h
         (repeat' split at h) <;> (cases h <;> rfl))

lemma findDup_eq_none (l : List OperatorType) :
    ∀ seen, findDup l seen = none ↔ (l.Nodup ∧ ∀ x ∈ l, x ∉ seen) := by
  induction l with
  | nil => intro seen; simp [findDup]
  | cons o rest ih =>
      intro seen
      simp only [findDup]
      by_cases ho : o ∈ seen
      · rw [if_pos ho]
        constructor
        · intro h; exact absurd h (by simp)
        · intro h; exact (h.2 o (List.mem_cons_self o rest) ho).elim
      · rw [if_neg ho, ih (o :: seen)]
        constructor
        · rintro ⟨hnd, hall⟩
          have hor : o ∉ rest := fun hmem => (hall o hmem) (List.mem_cons_self o seen)
          refine ⟨List.nodup_cons.mpr ⟨hor, hnd⟩, ?_⟩
          intro x hx
          rcases List.mem_cons.mp hx with rfl | hx'
          · exact ho
          · exact fun hs => (hall x hx') (List.mem_cons_of_mem _ hs)
        · rintro ⟨hnd, hall⟩
          have hnd' := List.nodup_cons.mp hnd
          refine ⟨hnd'.2, ?_⟩
          intro x hx hmem
          rcases List.mem_cons.mp hmem with rfl | hs
          · exact hnd'.1 hx
          · exact (hall x (List.mem_cons_of_mem _ hx)) hs

lemma findDup_mem_count (l : List OperatorType) :
    ∀ (seen : List OperatorType) (t : OperatorType), findDup l seen = some t →
      t ∈ l ∧ (t ∈ seen ∨ 2 ≤ l.count t) := by
  induction l with
  | nil => intro seen t h; simp [findDup] at h
  | cons o rest ih =>
      intro seen t h
      simp only [findDup] at h
      by_cases ho : o ∈ seen
      · rw [if_pos ho] at h
        have ht := Option.some.inj h
        subst ht
        exact ⟨List.mem_cons_self o rest, Or.inl ho⟩
      · rw [if_neg ho] at h
        obtain ⟨htr, hcase⟩ := ih (o :: seen) t h
        refine ⟨List.mem_cons_of_mem _ htr, ?_⟩
        rcases hcase with hmem | hcount
        · rcases List.mem_cons.mp hmem with rfl | hseen
          · right
            have h1 : 0 < rest.count t := List.count_pos_iff.mpr htr
            rw [List.count_cons_self]
            omega
          · exact Or.inl hseen
        · right
          have : rest.count t ≤ (o :: rest).count t := by
            rw [List.count_cons]
            omega
          omega

/-- C1: for every valid GameConfig (1-7 unique operators, any
difficulty) and every RNG outcome, `setup_game` returns a table with
firewalls = operator count + the difficulty's firewall bonus (Easy +3,
Normal +2, Hard +1, Heroic +0), all 3 databases and all 6 webservices
present, a draw pile of exactly operatorCount × multiplier face-down
cards (Easy ×6, otherwise ×7) each of catalog value ≤ 4, empty breach
and discard piles, round 0, no card facing, active operator 0, every
OperatorState fresh with skills = {own type}, and machine state
choose-action for operator 0. -/
theorem setup_game_spec (config : GameConfig) (shuffled : List HackerCard)
    (hlo : 1 ≤ config.operators.length) (hhi : config.operators.length ≤ 7)
    (hnodup : config.operators.Nodup) (hperm : shuffled.Perm validHackers) :
    (setup_game config shuffled).firewalls
        = config.operators.length + (difficulty_mod config.difficulty).1 ∧
    difficulty_mod .Easy = (3, 6) ∧ difficulty_mod .Normal = (2, 7) ∧
    difficulty_mod .Hard = (1, 7) ∧ difficulty_mod .Heroic = (0, 7) ∧
    (setup_game config shuffled).databases = [true, true, true] ∧
    (setup_game config shuffled).webservices = List.replicate 6 true ∧
    (setup_game config shuffled).hackers.length
        = config.operators.length * (difficulty_mod config.difficulty).2 ∧
    (∀ c ∈ (setup_game config shuffled).hackers,
      c.face_up = false ∧ ∃ h, HACKERS[c.hacker]? = some h ∧ h.value ≤ 4) ∧
    (setup_game config shuffled).breach = [] ∧
    (setup_game config shuffled).discard = [] ∧
    (setup_game config shuffled).round = 0 ∧
    (setup_game config shuffled).facing = NO_HACKER ∧
    (setup_game config shuffled).active_operator = 0 ∧
    (setup_game config shuffled).operators = config.operators.map OperatorState.new ∧
    (∀ st ∈ (setup_game config shuffled).operators,
      st.secure_slots = List.replicate 3 NO_HACKER ∧ st.backtrace_list = [] ∧
      st.burnout = false ∧ st.desperation = false ∧ st.idle = false) ∧
    (∀ i : Nat, ((setup_game config shuffled).operators[i]?).map OperatorState.skills
        = (config.operators[i]?).map (fun t => [t])) ∧
    (setup_game config shuffled).choice_state = ChoiceState.ChooseAction 0 := by
  have hm1 : (difficulty_mod config.difficulty).1 ≤ 3 := by
    cases config.difficulty <;> decide
  have hm2 : (difficulty_mod config.difficulty).2 ≤ 7 := by
    cases config.difficulty <;> decide
  have hslen : shuffled.length = 52 := by rw [hperm.length_eq, validHackers_length]
  refine ⟨?_, rfl, rfl, rfl, rfl, rfl, rfl, ?_, ?_, rfl, rfl, rfl, rfl, rfl, rfl, ?_, ?_, rfl⟩
  · show (config.operators.length + (difficulty_mod config.difficulty).1) % 256 = _
    exact Nat.mod_eq_of_lt (by omega)
  · show (shuffle shuffled _).length = _
    rw [shuffle, List.length_take, hslen]
    have : config.operators.length * (difficulty_mod config.difficulty).2 ≤ 49 := by
      calc config.operators.length * (difficulty_mod config.difficulty).2
          ≤ 7 * 7 := Nat.mul_le_mul hhi hm2
        _ = 49 := rfl
    omega
  · intro c hc
    have hc' : c ∈ shuffled := List.take_subset _ _ hc
    exact validHackers_spec c (hperm.mem_iff.mp hc')
  · intro st hst
    have hst' : st ∈ config.operators.map OperatorState.new := hst
    obtain ⟨t, _, rfl⟩ := List.mem_map.mp hst'
    exact ⟨rfl, rfl, rfl, rfl, rfl⟩
  · intro i
    show ((init_operators config.operators)[i]?).map OperatorState.skills = _
    rw [init_operators, List.getElem?_map, Option.map_map]
    cases config.operators[i]? <;> rfl

/-- C1 witness: the spec's end-to-end example — 2 operators on Easy
gives 5 firewalls, a 12-card draw pile and choose-action for operator
0. -/
theorem setup_game_spec_witness :
    table2e.firewalls = 5 ∧ table2e.hackers.length = 12 ∧
    table2e.choice_state = ChoiceState.ChooseAction 0 := by
  obtain ⟨h1, _, _, _, _, _, _, h8, _, _, _, _, _, _, _, _, _, h18⟩ :=
    setup_game_spec cfg2e validHackers (by decide) (by decide) (by decide)
      (List.Perm.refl _)
  exact ⟨h1.trans (by decide), h8.trans (by decide), h18⟩

/-- C2 (divergence): starting from the one-operator Easy setup, a
successful `perform Idle` marks operator 0 idle while the machine state
stays choose-action(0); in that state `valid_choices` still offers
`Idle` (first in the list), although operator 0 is already idle and
`perform Idle` would reject it — contradicting both the spec and
`valid_choices`' own promise to return performable choices. The rest of
the claim is visible in the result: Face is offered (non-empty pile) and
no Assist (no other operator). -/
theorem valid_choices_idle_bug :
    perform table1e .Idle = .ok idleTable ∧
    idleTable.choice_state = ChoiceState.ChooseAction 0 ∧
    (idleTable.operators[idleTable.active_operator]?).map OperatorState.idle
        = some true ∧
    valid_choices idleTable = some [Choice.Idle, Choice.Face] ∧
    perform idleTable .Idle = .fatal idleTable := by decide

/-- C3: `perform (FirewallDelta d)` is rejected — leaving the state
unchanged — exactly when firewalls + d falls outside the legal band
0..=3, and otherwise sets firewalls to firewalls + d. (The hypothesis
keeps the `u8 as i8` cast exact; every reachable firewall count is at
most 10.) -/
theorem perform_firewall_delta_spec (s : TableState) (d : Int)
    (hfw : s.firewalls ≤ 127) :
    (perform s (.FirewallDelta d) = .fatal s
        ↔ ¬ (0 ≤ (s.firewalls : Int) + d ∧ (s.firewalls : Int) + d ≤ 3)) ∧
    (∀ s', perform s (.FirewallDelta d) = .fatal s' → s' = s) ∧
    ((0 ≤ (s.firewalls : Int) + d ∧ (s.firewalls : Int) + d ≤ 3) →
      perform s (.FirewallDelta d)
        = .ok { s with firewalls := ((s.firewalls : Int) + d).toNat }) := by
  have hcast : i8ofU8 s.firewalls = s.firewalls := i8ofU8_of_le hfw
  refine ⟨?_, fun s' h => perform_fatal_eq s _ s' h, ?_⟩
  · by_cases h : 0 ≤ (s.firewalls : Int) + d ∧ (s.firewalls : Int) + d ≤ 3
    · simp [perform, hcast, h]
    · simp [perform, hcast, h]
  · intro h
    simp [perform, hcast, h]

/-- C3 witness: from 0 firewalls a delta of −1 is rejected with the
state unchanged; from 2 firewalls a delta of +1 yields 3. -/
theorem perform_firewall_delta_spec_witness :
    perform (fwTable 0) (.FirewallDelta (-1)) = .fatal (fwTable 0) ∧
    perform (fwTable 2) (.FirewallDelta 1) = .ok { fwTable 2 with firewalls := 3 } := by
  constructor
  · exact (perform_firewall_delta_spec (fwTable 0) (-1) (by decide)).1.mpr (by decide)
  · exact (perform_firewall_delta_spec (fwTable 2) 1 (by decide)).2.2 (by decide)

/-- C4 (counterexample): with one operator on Heroic the session's
initial firewall maximum is 1, yet the state with 3 firewalls is
reachable — setup gives 1 firewall and `perform (FirewallDelta 2)`
succeeds because the perform-level band is the fixed 0..=3, not the
session maximum. So the claimed invariant fails as stated. -/
theorem firewall_bound_counterexample :
    Reachable cfg1h overTable ∧
    ¬ (overTable.firewalls
        ≤ cfg1h.operators.length + (difficulty_mod cfg1h.difficulty).1) := by
  constructor
  · exact Reachable.step table1h (.FirewallDelta 2) overTable
      (Reachable.setup validHackers (List.Perm.refl _)) (by decide)
  · decide

/-- C4 (amended): in every state reachable from `setup_game` by
successful `perform` events, the firewall count is at most the larger of
3 and the session's initial maximum (operator count + difficulty bonus);
as a `Nat` it is never negative. -/
theorem firewall_bound_amended (config : GameConfig)
    (hlen : config.operators.length ≤ 7) :
    ∀ s, Reachable config s →
      s.firewalls ≤ max 3 (config.operators.length + (difficulty_mod config.difficulty).1) := by
  intro s hs
  induction hs with
  | setup shuffled hperm =>
      have hm1 : (difficulty_mod config.difficulty).1 ≤ 3 := by
        cases config.difficulty <;> decide
      have hmod : (config.operators.length + (difficulty_mod config.difficulty).1) % 256
          = config.operators.length + (difficulty_mod config.difficulty).1 :=
        Nat.mod_eq_of_lt (by omega)
      show (config.operators.length + (difficulty_mod config.difficulty).1) % 256 ≤ _
      rw [hmod]
      exact le_max_right _ _
  | step s e s' hr hstep ih =>
      cases e with
      | FirewallDelta d =>
          have hband : s'.firewalls ≤ 3 := by
            simp only [perform] at hstep
            split at hstep
            · rename_i hcond
              cases hstep
              simpa using Int.toNat_le_toNat hcond.2
            · cases hstep
          exact le_trans hband (le_max_left _ _)
      | DatabaseRemove idx =>
          rw [perform_ok_firewalls s _ s' hstep (by intro d h; cases h)]; exact ih
      | WebserviceRemove idx =>
          rw [perform_ok_firewalls s _ s' hstep (by intro d h; cases h)]; exact ih
      | Face =>
          rw [perform_ok_firewalls s _ s' hstep (by intro d h; cases h)]; exact ih
      | Assist target =>
          rw [perform_ok_firewalls s _ s' hstep (by intro d h; cases h)]; exact ih
      | Idle =>
          rw [perform_ok_firewalls s _ s' hstep (by intro d h; cases h)]; exact ih
      | ActiveOperator op =>
          rw [perform_ok_firewalls s _ s' hstep (by intro d h; cases h)]; exact ih
      | ChoiceState next =>
          rw [perform_ok_firewalls s _ s' hstep (by intro d h; cases h)]; exact ih

/-- C4 witness: the two-operator Easy setup state is reachable and its
firewall count 5 respects the amended bound max(3, 2 + 3). -/
theorem firewall_bound_amended_witness :
    table2e.firewalls
      ≤ max 3 (cfg2e.operators.length + (difficulty_mod cfg2e.difficulty).1) :=
  firewall_bound_amended cfg2e (by decide) table2e
    (Reachable.setup validHackers (List.Perm.refl _))

/-- C5 (divergence): on the fresh two-operator Easy table all 6
webservices are present, and `DatabaseRemove` behaves as claimed
(index 2 removes exactly database 2, an absent index is rejected), but
`perform (WebserviceRemove 5)` is rejected even though index 5 is in
range (5 < 6) and present — the code checks `(0..5)` while its own
panic message says "must be 0..=5" and the webservice array has 6
entries. Index 4, equally present, is removed fine. -/
theorem webservice_remove_range_bug :
    (5 : Nat) < 6 ∧
    table2e.webservices[5]? = some true ∧
    perform table2e (.WebserviceRemove 5) = .fatal table2e ∧
    perform table2e (.WebserviceRemove 4)
        = .ok { table2e with webservices := [true, true, true, true, false, true] } ∧
    perform table2e (.DatabaseRemove 2)
        = .ok { table2e with databases := [true, true, false] } ∧
    perform { table2e with databases := [true, true, false] } (.DatabaseRemove 2)
        = .fatal { table2e with databases := [true, true, false] } ∧
    perform table2e (.DatabaseRemove 3) = .fatal table2e := by decide

/-- C6: `perform Face` is rejected, state unchanged, when the draw pile
is empty or a card is already being faced; on a non-empty pile with no
card facing it pops exactly the top card (the last element) into
`facing`, shrinking the pile by one and changing no other field. -/
theorem perform_face_spec (s : TableState) :
    ((s.hackers = [] ∨ s.facing ≠ NO_HACKER) → perform s .Face = .fatal s) ∧
    (s.facing = NO_HACKER → ∀ h : s.hackers ≠ [],
      perform s .Face = .ok { s with hackers := s.hackers.dropLast,
                                     facing := (s.hackers.getLast h).hacker }) := by
  constructor
  · intro hrej
    rcases hrej with he | hf
    · by_cases hf : s.facing = NO_HACKER
      · simp [perform, hf, he]
      · simp [perform, hf]
    · simp [perform, hf]
  · intro hf h
    simp [perform, hf, List.getLast?_eq_getLast s.hackers h]

/-- C6 witness: on the fresh two-operator Easy table, Face pops the top
card into facing; on the emptied pile and on the already-facing table it
is rejected unchanged. -/
theorem perform_face_spec_witness :
    perform table2e .Face
        = .ok { table2e with hackers := table2e.hackers.dropLast,
                             facing := (table2e.hackers.getLast (by decide)).hacker } ∧
    perform { table2e with hackers := [] } .Face
        = .fatal { table2e with hackers := [] } ∧
    perform facingTable .Face = .fatal facingTable := by
  refine ⟨?_, ?_, ?_⟩
  · exact (perform_face_spec table2e).2 (by decide) (by decide)
  · exact (perform_face_spec { table2e with hackers := [] }).1 (Or.inl rfl)
  · exact (perform_face_spec facingTable).1 (Or.inr (by decide))

/-- C7 (divergence): `Idle` is an accepted choice on the fresh
two-operator Easy table (it is in `valid_choices` and `perform Idle`
succeeds there), yet `choose` returns no event list for it — the Rust
body panics "choice not implemented" for every choice, contradicting its
own doc comment, which promises the list of events needed to reach the
next choice state. -/
theorem choose_unimplemented_bug :
    Choice.Idle ∈ (valid_choices table2e).getD [] ∧
    (∃ s', perform table2e .Idle = .ok s') ∧
    choose table2e Choice.Idle = none := by
  refine ⟨by decide, ⟨{ table2e with operators := [opIdleStone, OperatorState.new .Sniper] }, by decide⟩, rfl⟩

/-- C8: every event whose spec-table precondition fails in the current
state is rejected with the state unchanged, and more generally every
rejection (panic) leaves the state exactly as it was — validation
happens before any mutation. -/
theorem perform_rejects_unchanged (s : TableState) (e : TableEvent) :
    (¬ specEventPre s e → perform s e = .fatal s) ∧
    (∀ s', perform s e = .fatal s' → s' = s) := by
  refine ⟨?_, fun s' h => perform_fatal_eq s e s' h⟩
  intro hpre
  cases e with
  | FirewallDelta d =>
      rw [specEventPre] at hpre
      simp [perform, hpre]
  | DatabaseRemove idx =>
      rw [specEventPre] at hpre
      by_cases h3 : idx < 3
      · cases ho : s.databases[idx]? with
        | none => simp [perform, h3, ho]
        | some b =>
            cases b with
            | false => simp [perform, h3, ho]
            | true => exact absurd ⟨h3, ho⟩ hpre
      · simp [perform, h3]
  | WebserviceRemove idx =>
      rw [specEventPre] at hpre
      by_cases h5 : idx < 5
      · cases ho : s.webservices[idx]? with
        | none => simp [perform, h5, ho]
        | some b =>
            cases b with
            | false => simp [perform, h5, ho]
            | true => exact absurd ⟨by omega, ho⟩ hpre
      · simp [perform, h5]
  | Face =>
      rw [specEventPre] at hpre
      by_cases hf : s.facing = NO_HACKER
      · have he : s.hackers = [] := by
          by_contra hne
          exact hpre ⟨hf, hne⟩
        simp [perform, hf, he]
      · simp [perform, hf]
  | Idle =>
      rw [specEventPre] at hpre
      cases ho : s.operators[s.active_operator]? with
      | none => simp [perform, ho]
      | some op =>
          cases hidle : op.idle with
          | false => exact absurd ⟨op, ho, hidle⟩ hpre
          | true => simp [perform, ho, hidle]
  | Assist target => simp [perform]
  | ActiveOperator op => exact absurd trivial hpre
  | ChoiceState next => exact absurd trivial hpre

/-- C8 witness: Face on the already-facing table violates the spec
precondition and is rejected with the state unchanged. -/
theorem perform_rejects_unchanged_witness :
    perform facingTable .Face = .fatal facingTable :=
  (perform_rejects_unchanged facingTable .Face).1
    (fun hpre => absurd hpre.1 (by decide))

/-- C9: `GameConfig::new` fails closed — an empty roster yields
`NoOperators`; a roster with a repeated operator type yields
`DuplicateOperator` carrying a type that indeed occurs at least twice;
otherwise it succeeds and the stored roster is the input roster in the
same order. -/
theorem gameConfig_new_spec (difficulty : Difficulty) (ops : List OperatorType) :
    (ops = [] → GameConfig.new difficulty ops = .error .NoOperators) ∧
    (¬ ops.Nodup → ∃ t, GameConfig.new difficulty ops = .error (.DuplicateOperator t)
        ∧ 2 ≤ ops.count t) ∧
    (ops ≠ [] → ops.Nodup →
      GameConfig.new difficulty ops = .ok { operators := ops, difficulty := difficulty }) := by
  refine ⟨?_, ?_, ?_⟩
  · rintro rfl; rfl
  · intro hnd
    have hne : ops ≠ [] := by rintro rfl; exact hnd List.nodup_nil
    have hdup : findDup ops [] ≠ none := by
      intro hnone
      exact hnd ((findDup_eq_none ops []).mp hnone).1
    obtain ⟨t, ht⟩ := Option.ne_none_iff_exists'.mp hdup
    obtain ⟨_, hcase⟩ := findDup_mem_count ops [] t ht
    refine ⟨t, ?_, ?_⟩
    · rw [GameConfig.new, if_neg (by simp [hne]), ht]
    · rcases hcase with hmem | hcount
      · simp at hmem
      · exact hcount
  · intro hne hnd
    have hnone : findDup ops [] = none := (findDup_eq_none ops []).mpr ⟨hnd, by simp⟩
    rw [GameConfig.new, if_neg (by simp [hne]), hnone]

/-- C9 witness: the empty roster, the valid roster of the repository's
own test, and a roster repeating Charm, each mapped through the
constructor. -/
theorem gameConfig_new_spec_witness :
    GameConfig.new .Easy ([] : List OperatorType) = .error .NoOperators ∧
    GameConfig.new .Easy [.Biggs, .Charm, .Sniper]
        = .ok { operators := [.Biggs, .Charm, .Sniper], difficulty := .Easy } ∧
    (∃ t, GameConfig.new .Easy [.Biggs, .Charm, .Sniper, .Charm]
        = .error (.DuplicateOperator t)
        ∧ 2 ≤ [OperatorType.Biggs, .Charm, .Sniper, .Charm].count t) := by
  refine ⟨?_, ?_, ?_⟩
  · exact (gameConfig_new_spec .Easy []).1 rfl
  · exact (gameConfig_new_spec .Easy _).2.2 (by decide) (by decide)
  · exact (gameConfig_new_spec .Easy _).2.1 (by decide)

/-- C10: every implemented event, when it succeeds, mutates only the
component named in its effect — FirewallDelta only `firewalls`,
DatabaseRemove(i) only `databases[i]`, WebserviceRemove(i) only
`webservices[i]`, Face only the draw pile and `facing`, Idle only the
active operator's idle flag, ChoiceState only the machine state — and
leaves every other field unchanged. -/
theorem perform_frame_spec (s : TableState) (e : TableEvent) (s' : TableState)
    (h : perform s e = .ok s') : framePreserved s e s' := by
  cases e with
  | FirewallDelta d =>
      simp only [perform] at h
      split at h
      · cases h; exact ⟨rfl, rfl, rfl, rfl, rfl, rfl, rfl, rfl, rfl, rfl⟩
      · cases h
  | DatabaseRemove idx =>
      simp only [perform] at h
      split at h
      · split at h
        · split at h
          · cases h
            exact ⟨rfl, List.length_set .., fun j hj => List.getElem?_set_ne (Ne.symm hj),
              rfl, rfl, rfl, rfl, rfl, rfl, rfl, rfl, rfl⟩
          · cases h
        · cases h
      · cases h
  | WebserviceRemove idx =>
      simp only [perform] at h
      split at h
      · split at h
        · split at h
          · cases h
            exact ⟨rfl, rfl, List.length_set .., fun j hj => List.getElem?_set_ne (Ne.symm hj),
              rfl, rfl, rfl, rfl, rfl, rfl, rfl, rfl⟩
          · cases h
        · cases h
      · cases h
  | Face =>
      simp only [perform] at h
      split at h
      · cases h
      · split at h
        · cases h
          exact ⟨rfl, rfl, rfl, rfl, rfl, rfl, rfl, rfl, rfl⟩
        · cases h
  | Idle =>
      simp only [perform] at h
      split at h
      · rename_i op ho
        split at h
        · cases h
        · cases h
          have hlt : s.active_operator < s.operators.length :=
            (List.getElem?_eq_some.mp ho).1
          refine ⟨rfl, rfl, rfl, rfl, rfl, rfl, rfl, rfl, rfl, rfl,
            fun j hj => List.getElem?_set_ne (Ne.symm hj),
            op, ho, ?_⟩
          rw [List.getElem?_set_eq_of_lt _ hlt]
      · cases h
  | Assist target => trivial
  | ActiveOperator op => trivial
  | ChoiceState next =>
      simp only [perform] at h
      cases h
      exact ⟨rfl, rfl, rfl, rfl, rfl, rfl, rfl, rfl, rfl, rfl⟩

/-- C10 witness: removing database 2 from the fresh two-operator Easy
table preserves every other component. -/
theorem perform_frame_spec_witness :
    framePreserved table2e (.DatabaseRemove 2)
      { table2e with databases := [true, true, false] } :=
  perform_frame_spec table2e (.DatabaseRemove 2)
    { table2e with databases := [true, true, false] } (by decide)

end CyberRRT
